import Mathlib

/-!
Shallow embedding of `meltingplot/duet_simplyprint_connector/virtual_client.py`
(the SimplyPrint <-> Duet bridge client), together with proofs about the
properties of its status mapping, temperature mapping, G-code filtering,
file-transfer pipeline, webcam buffering and task lifecycle.

Python dictionaries/lists/JSON-ish values are modelled by `JVal`; Python
exceptions relevant to the embedded code are modelled by `PyErr`; fallible
Python expressions are modelled in the `Except PyErr` monad.  Machine floats
of the source are modelled as rationals (`ℚ`): none of the embedded
computations is sensitive to rounding of binary floating point at the values
the claims are about.
-/

/-- Python exception classes that occur in the embedded code. -/
inductive PyErr where
  | keyError
  | typeError
  | indexError
  | valueError
  | zeroDivisionError
  deriving DecidableEq, Repr

/-- A Python/JSON-ish dynamic value (the object model is such a value). -/
inductive JVal where
  | num (q : ℚ)
  | str (s : String)
  | bool (b : Bool)
  | null
  | arr (xs : List JVal)
  | obj (fields : List (String × JVal))

/-- First-match lookup in a dict's field list (Python dict key lookup). -/
def jLookup : List (String × JVal) → String → Option JVal
  | [], _ => none
  | (k, v) :: rest, key => if k = key then some v else jLookup rest key

/-- Python subscript `v[key]` with a string key: dict lookup raises `KeyError`
on a missing key; subscripting a list/str/number/None with a string raises
`TypeError`. -/
def jGetStr (v : JVal) (key : String) : Except PyErr JVal :=
  match v with
  | .obj fields =>
    match jLookup fields key with
    | some x => .ok x
    | none => .error .keyError
  | _ => .error .typeError

/-- Python list indexing with an integer: negative indices count from the
end; out-of-range raises `IndexError`. -/
def pyListGet (xs : List JVal) (i : Int) : Except PyErr JVal :=
  let j : Int := if i < 0 then i + (xs.length : Int) else i
  if j < 0 then .error .indexError
  else
    match xs.get? j.toNat with
    | some v => .ok v
    | none => .error .indexError

/-- Python subscript `v[idx]` where `idx` is itself a dynamic value (used for
`heaters[bed_heater_index]`): lists require an integral number (else
`TypeError`), dicts with a non-string key raise `KeyError` in this model
(the embedded object model only has string keys). -/
def jIndexVal (v : JVal) (idx : JVal) : Except PyErr JVal :=
  match v, idx with
  | .arr xs, .num q => if q.den = 1 then pyListGet xs q.num else .error .typeError
  | .obj fields, .str s =>
    match jLookup fields s with
    | some x => .ok x
    | none => .error .keyError
  | .obj _, _ => .error .keyError
  | _, _ => .error .typeError

/-- Python `v == 'lit'` for a string literal: true only on equal strings. -/
def jEqStr (v : JVal) (lit : String) : Bool :=
  match v with
  | .str t => t = lit
  | _ => false

/-- Python `v is None`. -/
def jIsNull (v : JVal) : Bool :=
  match v with
  | .null => true
  | _ => false

/-- Python `'key' in v`: key test for dicts, membership for lists, substring
test for strings, `TypeError` otherwise. -/
def pyContains (v : JVal) (key : String) : Except PyErr Bool :=
  match v with
  | .obj fields => .ok ((jLookup fields key).isSome)
  | .arr xs => .ok (xs.any (fun x => jEqStr x key))
  | .str s => .ok (decide (key.toList <:+: s.toList))
  | _ => .error .typeError

/-! ## Status mapping (`_map_duet_state_to_printer_status`, `_is_printing`) -/

/-- `simplyprint_ws_client.core.state.PrinterStatus` values used by the
client. -/
inductive PrinterStatus where
  | OFFLINE
  | NOT_READY
  | ERROR
  | PAUSING
  | PAUSED
  | RESUMING
  | CANCELLING
  | PRINTING
  | OPERATIONAL
  deriving DecidableEq, Repr

/-- `duet_state_simplyprint_status_mapping` (module-level dict). -/
def duet_state_simplyprint_status_mapping : List (String × PrinterStatus) :=
  [("disconnected", .OFFLINE),
   ("starting", .NOT_READY),
   ("updating", .NOT_READY),
   ("off", .OFFLINE),
   ("halted", .ERROR),
   ("pausing", .PAUSING),
   ("paused", .PAUSED),
   ("resuming", .RESUMING),
   ("cancelling", .CANCELLING),
   ("processing", .PRINTING),
   ("simulating", .OPERATIONAL),
   ("busy", .OPERATIONAL),
   ("changingTool", .OPERATIONAL),
   ("idle", .OPERATIONAL)]

/-- `duet_state_simplyprint_status_while_printing_mapping` (module-level
dict). -/
def duet_state_simplyprint_status_while_printing_mapping : List (String × PrinterStatus) :=
  [("disconnected", .OFFLINE),
   ("starting", .NOT_READY),
   ("updating", .NOT_READY),
   ("off", .OFFLINE),
   ("halted", .ERROR),
   ("pausing", .PAUSING),
   ("paused", .PAUSED),
   ("resuming", .RESUMING),
   ("cancelling", .CANCELLING),
   ("processing", .PRINTING),
   ("simulating", .NOT_READY),
   ("busy", .PRINTING),
   ("changingTool", .PRINTING),
   ("idle", .OPERATIONAL)]

/-- `dict.get(key, default)` over the embedded mapping dicts. -/
def statusTableGet (tbl : List (String × PrinterStatus)) (key : JVal) : PrinterStatus :=
  match key with
  | .str s =>
    match List.lookup s tbl with
    | some st => st
    | none => .OFFLINE
  | _ => .OFFLINE

/-- `VirtualClient._is_printing`: true when the current status is one of the
four printing-family statuses, otherwise inspects `om['job']['file']`,
catching `KeyError`/`TypeError` as `False`. -/
def is_printing (status : PrinterStatus) (om : JVal) : Bool :=
  if status = .PRINTING ∨ status = .PAUSED ∨ status = .PAUSING ∨ status = .RESUMING then
    true
  else
    match (jGetStr om "job").bind (fun j => jGetStr j "file") with
    | .error _ => false
    | .ok jobFile =>
      match pyContains jobFile "filename" with
      | .error _ => false
      | .ok false => false
      | .ok true =>
        match jGetStr jobFile "filename" with
        | .error _ => false
        | .ok v => !(jIsNull v)

/-- `VirtualClient._map_duet_state_to_printer_status`: reads
`om['state']['status']` (catching `KeyError`/`TypeError` as
`'disconnected'`), then maps it through the table selected by
`_is_printing`, defaulting to `OFFLINE`. -/
def map_duet_state_to_printer_status (om : JVal) (status : PrinterStatus) : PrinterStatus :=
  let printer_state : JVal :=
    match (jGetStr om "state").bind (fun s => jGetStr s "status") with
    | .ok v => v
    | .error _ => .str "disconnected"
  let tbl :=
    if is_printing status om then duet_state_simplyprint_status_while_printing_mapping
    else duet_state_simplyprint_status_mapping
  statusTableGet tbl printer_state

/-- Modelled from the spec: "the object model reports a non-null active job
filename" — the spec-side reading of the printing condition, written from
the spec's words for comparison with the code-side `is_printing`. -/
def specReportsJobFilename (om : JVal) : Bool :=
  match (jGetStr om "job").bind (fun j => jGetStr j "file") with
  | .ok (.obj fields) =>
    match jLookup fields "filename" with
    | some v => !(jIsNull v)
    | none => false
  | _ => false

/-- Modelled from the spec: the status-mapper contract of the spec — select
the printing-biased table iff printing, default unmapped states to
OFFLINE. -/
def specStatusMapping (om : JVal) (status : PrinterStatus) : PrinterStatus :=
  let printer_state : JVal :=
    match (jGetStr om "state").bind (fun s => jGetStr s "status") with
    | .ok v => v
    | .error _ => .str "disconnected"
  let printing :=
    status = .PRINTING ∨ status = .PAUSED ∨ status = .PAUSING ∨ status = .RESUMING ∨
      specReportsJobFilename om = true
  let tbl :=
    if printing then duet_state_simplyprint_status_while_printing_mapping
    else duet_state_simplyprint_status_mapping
  statusTableGet tbl printer_state

/-! ## Temperature mapping (`_update_temperatures` and the `KeyError`
handler around it in `_duet_on_objectmodel`) -/

/-- The temperature fields of the printer state that `_update_temperatures`
writes: bed actual/target and, per configured tool, actual/target.  The
`tools` list mirrors `self.printer.tool_temperatures`. -/
structure TempState where
  bedActual : JVal
  bedTarget : JVal
  tools : List (JVal × JVal)

/-- The tool loop of `_update_temperatures`: for each entry of
`self.printer.tool_temperatures` (index `idx`), read
`om['tools'][idx]['heaters'][0]`, set actual from that heater's
`'current'`, and set target from its `'active'` — unless
`heaters[1]['state']` is `'off'`, in which case target is `0.0`.  Returns
the updated pairs together with the first uncaught exception; entries after
the failing one keep their previous values. -/
def update_tool_temperatures (om : JVal) (heatersV : JVal) :
    Nat → List (JVal × JVal) → List (JVal × JVal) × Option PyErr
  | _, [] => ([], none)
  | idx, (a, t) :: rest =>
    match ((jGetStr om "tools").bind (fun ts => jIndexVal ts (.num idx))).bind
        (fun tool => (jGetStr tool "heaters").bind (fun hs => jIndexVal hs (.num 0))) with
    | .error e => ((a, t) :: rest, some e)
    | .ok heaterIdxV =>
      match (jIndexVal heatersV heaterIdxV).bind (fun h => jGetStr h "current") with
      | .error e => ((a, t) :: rest, some e)
      | .ok cur =>
        match (jIndexVal heatersV (.num 1)).bind (fun h => jGetStr h "state") with
        | .error e => ((cur, t) :: rest, some e)
        | .ok state1 =>
          match (if jEqStr state1 "off" then Except.ok (JVal.num 0)
                 else (jIndexVal heatersV heaterIdxV).bind (fun h => jGetStr h "active")) with
          | .error e => ((cur, t) :: rest, some e)
          | .ok tgt =>
            ((cur, tgt) :: (update_tool_temperatures om heatersV (idx + 1) rest).1,
             (update_tool_temperatures om heatersV (idx + 1) rest).2)

/-- `VirtualClient._update_temperatures`, threading the partially updated
temperature fields and the first exception raised (if any).  Note the
source checks `heaters[0]['state']` for the bed target and
`heaters[1]['state']` for every tool target — not the heater index in
use. -/
def update_temperatures (om : JVal) (st : TempState) : TempState × Option PyErr :=
  match (jGetStr om "heat").bind (fun h => jGetStr h "heaters") with
  | .error e => (st, some e)
  | .ok heatersV =>
    match ((jGetStr om "heat").bind (fun h => jGetStr h "bedHeaters")).bind
        (fun bs => jIndexVal bs (.num 0)) with
    | .error e => (st, some e)
    | .ok bedIdxV =>
      match (jIndexVal heatersV bedIdxV).bind (fun h => jGetStr h "current") with
      | .error e => (st, some e)
      | .ok bedCur =>
        let st1 : TempState := { st with bedActual := bedCur }
        match (jIndexVal heatersV (.num 0)).bind (fun h => jGetStr h "state") with
        | .error e => (st1, some e)
        | .ok state0 =>
          match (if jEqStr state0 "off" then Except.ok (JVal.num 0)
                 else (jIndexVal heatersV bedIdxV).bind (fun h => jGetStr h "active")) with
          | .error e => (st1, some e)
          | .ok bedTgt =>
            ({ bedActual := bedCur, bedTarget := bedTgt,
               tools := (update_tool_temperatures om heatersV 0 st.tools).1 },
             (update_tool_temperatures om heatersV 0 st.tools).2)

/-- The temperature step of `_duet_on_objectmodel`: run
`_update_temperatures` inside `try ... except KeyError`, where the handler
sets `bed_temperature.actual = 0.0` and `tool_temperatures[0].actual =
0.0` (the latter itself raising `IndexError` when there is no tool
entry).  Exceptions other than `KeyError` propagate. -/
def objectmodel_temp_update (om : JVal) (st : TempState) : TempState × Option PyErr :=
  match update_temperatures om st with
  | (st1, none) => (st1, none)
  | (st1, some .keyError) =>
    let st2 : TempState := { st1 with bedActual := JVal.num 0 }
    match st2.tools with
    | [] => (st2, some .indexError)
    | (_, t) :: rest => ({ st2 with tools := (JVal.num 0, t) :: rest }, none)
  | (st1, some e) => (st1, some e)

/-! ## Job progress (`_update_job_progress`) -/

/-- Digit-string accumulator for the model of Python `float(str)`. -/
def decDigitsGo : List Char → Nat → Option Nat
  | [], acc => some acc
  | c :: rest, acc =>
    if c.isDigit then decDigitsGo rest (acc * 10 + (c.toNat - 48)) else none

/-- A simple decimal parser standing in for Python `float(str)`:
an optional sign, then digits with an optional single decimal point.
Anything else raises `ValueError` in `pyFloat`. -/
def parseDecimal (s : String) : Option ℚ :=
  let withSign : List Char → Option ℚ := fun cs =>
    match cs.span (fun c => c ≠ '.') with
    | (intPart, []) =>
      if intPart.isEmpty then none
      else (decDigitsGo intPart 0).map (fun n => (n : ℚ))
    | (intPart, _dot :: fracPart) =>
      if intPart.isEmpty ∧ fracPart.isEmpty then none
      else
        match decDigitsGo intPart 0, decDigitsGo fracPart 0 with
        | some n, some f => some ((n : ℚ) + (f : ℚ) / ((10 : ℚ) ^ fracPart.length))
        | _, _ => none
  match s.toList with
  | '-' :: rest => (withSign rest).map (fun q => -q)
  | '+' :: rest => withSign rest
  | cs => withSign cs

/-- Python `float(v)`: numbers pass through, booleans coerce to 0/1,
strings are parsed (`ValueError` on failure), everything else raises
`TypeError`. -/
def pyFloat (v : JVal) : Except PyErr ℚ :=
  match v with
  | .num q => .ok q
  | .bool b => .ok (if b then 1 else 0)
  | .str s =>
    match parseDecimal s with
    | some q => .ok q
    | none => .error .valueError
  | _ => .error .typeError

/-- Python `sum(xs)` over a list value: numbers/booleans add, any other
element raises `TypeError`. -/
def pySum : List JVal → Except PyErr ℚ
  | [] => .ok 0
  | .num q :: rest => (pySum rest).map (fun t => q + t)
  | .bool b :: rest => (pySum rest).map (fun t => (if b then (1 : ℚ) else 0) + t)
  | _ :: _ => .error .typeError

/-- Python `sum(v)` where `v` is an arbitrary value
(`sum(job_status['file']['filament'])`): lists sum their elements; an empty
dict or empty string iterates to 0; everything else raises `TypeError`. -/
def pySumVal (v : JVal) : Except PyErr ℚ :=
  match v with
  | .arr xs => pySum xs
  | .obj [] => .ok 0
  | .str "" => .ok 0
  | _ => .error .typeError

/-- The body of the `try` block of `_update_job_progress`:
`total = sum(job_status['file']['filament'])`,
`current = float(job_status['rawExtrusion'])`,
`progress = min(current * 100.0 / total, 100.0)` (division by a zero total
raising `ZeroDivisionError`). -/
def update_job_progress_body (job : JVal) : Except PyErr ℚ :=
  match (jGetStr job "file").bind (fun f => jGetStr f "filament") with
  | .error e => .error e
  | .ok filV =>
    match pySumVal filV with
    | .error e => .error e
    | .ok total =>
      match jGetStr job "rawExtrusion" with
      | .error e => .error e
      | .ok rawV =>
        match pyFloat rawV with
        | .error e => .error e
        | .ok current =>
          if total = 0 then .error .zeroDivisionError
          else .ok (min (current * 100 / total) 100)

/-- `VirtualClient._update_job_progress`: the body with
`TypeError`/`KeyError`/`ZeroDivisionError` caught and mapped to a progress
of `0.0`; any other exception propagates.  `.ok p` means
`job_info.progress` was set to `p`; `.error e` means the exception escaped
with the progress untouched. -/
def update_job_progress (job : JVal) : Except PyErr ℚ :=
  match update_job_progress_body job with
  | .ok p => .ok p
  | .error .typeError => .ok 0
  | .error .keyError => .ok 0
  | .error .zeroDivisionError => .ok 0
  | .error e => .error e

/-! ## G-code filtering (`deferred_gcode`) -/

/-- `allowed_commands` (local list in `deferred_gcode`). -/
def allowed_commands : List String :=
  ["M17", "M18", "M104", "M106", "M107", "M109", "M112", "M140", "M190",
   "M220", "M221", "G1", "G28", "G29", "G90", "G91"]

/-- The per-token effect of the dispatch chain in `deferred_gcode`. -/
inductive GAction where
  | forwarded (code : String)
  | setupPrompt
  | upgraded
  | blocked (code : String)
  deriving DecidableEq, Repr

/-- The branch taken by `deferred_gcode` for a single parsed token with
opcode `code`. -/
def dispatch_gcode_item (inSetup : Bool) (code : String) : GAction :=
  if allowed_commands.contains code ∧ inSetup = false then .forwarded code
  else if code = "M300" ∧ inSetup = true then .setupPrompt
  else if code = "M997" then .upgraded
  else .blocked code

/-- The token loop of `deferred_gcode` over the opcodes of a parsed batch:
one effect per token, in order.  An `M997` token runs
`_perform_self_upgrade`, which always raises `KeyboardInterrupt`, aborting
the rest of the batch — recorded as `false` in the second component. -/
def deferred_gcode_loop (inSetup : Bool) : List String → List GAction × Bool
  | [] => ([], true)
  | code :: rest =>
    match dispatch_gcode_item inSetup code with
    | .upgraded => ([GAction.upgraded], false)
    | a =>
      (a :: (deferred_gcode_loop inSetup rest).1, (deferred_gcode_loop inSetup rest).2)

/-! ## Device identity on connect (`_duet_on_connect`,
`_set_duet_unique_id`, `_validate_duet_unique_id`) -/

/-- The parts of the client state touched by the identity step of
`_duet_on_connect`: the persisted unique id, the printer status, and the
number of `ClientConfigChangedEvent` emissions. -/
structure IdentState where
  duet_unique_id : Option String
  status : PrinterStatus
  configChangedEvents : Nat
  deriving DecidableEq, Repr

/-- The identity step of `_duet_on_connect`: with no stored id,
`_set_duet_unique_id` stores the board's `uniqueId` and one
`ClientConfigChangedEvent` is emitted; otherwise
`_validate_duet_unique_id` compares and, on mismatch, forces the status to
`OFFLINE` and raises `ValueError`. -/
def on_connect_identity (st : IdentState) (reportedUniqueId : String) :
    IdentState × Option PyErr :=
  match st.duet_unique_id with
  | none =>
    ({ st with
        duet_unique_id := some reportedUniqueId,
        configChangedEvents := st.configChangedEvents + 1 }, none)
  | some stored =>
    if stored ≠ reportedUniqueId then
      ({ st with status := PrinterStatus.OFFLINE }, some .valueError)
    else (st, none)

/-! ## Webcam frame buffer (`_initialize_webcam`,
`_handle_multipart_content`, `_handle_image_content`) -/

/-- The producer step shared by `_handle_multipart_content` and
`_handle_image_content` on the `asyncio.Queue(maxsize=3)` frame buffer:
`if full(): get()` (drop the oldest frame) and then `put(new)`. -/
def frame_buffer_put (buf : List Nat) (frame : Nat) : List Nat :=
  (if buf.length = 3 then buf.tail else buf) ++ [frame]

/-- An operation on the frame buffer: a producer insertion or a consumer
`get` (`_fetch_webcam_image`; a `get` on an empty buffer blocks, so it is
modelled as leaving the buffer unchanged until a frame arrives). -/
inductive BufOp where
  | put (frame : Nat)
  | take
  deriving DecidableEq, Repr

/-- One frame-buffer transition. -/
def frame_buffer_step (buf : List Nat) : BufOp → List Nat
  | .put f => frame_buffer_put buf f
  | .take => buf.tail

/-- The buffer reached from empty by a sequence of operations. -/
def frame_buffer_run (ops : List BufOp) : List Nat :=
  ops.foldl frame_buffer_step []

/-! ## Webcam distribution task lifecycle (`on_webcam_snapshot`,
`_webcam_distribution_task`) -/

/-- The observable task-lifecycle state: whether
`_webcam_distribution_task_handle` is non-`None`, and how many
distribution tasks are currently running. -/
structure WebcamTaskState where
  handleSet : Bool
  running : Nat
  deriving DecidableEq, Repr

/-- Lifecycle events: a snapshot demand (`on_webcam_snapshot`, which spawns
a task and stores its handle only when the stored handle is `None` and a
webcam URI is configured), a normal task exit (the task's final statement
resets the handle to `None`), and a cancellation (which removes the task
without running its final statement). -/
inductive WcEvent where
  | demand (uriSet : Bool)
  | exitNormal
  | cancelTask
  deriving DecidableEq, Repr

/-- One lifecycle transition.  The check-and-spawn in `on_webcam_snapshot`
contains no suspension point between the `None` test and the handle
assignment, so it is a single transition. -/
def webcam_task_step (s : WebcamTaskState) : WcEvent → WebcamTaskState
  | .demand uriSet =>
    if s.handleSet = false ∧ uriSet = true then
      { handleSet := true, running := s.running + 1 }
    else s
  | .exitNormal =>
    if s.running ≥ 1 then { handleSet := false, running := s.running - 1 } else s
  | .cancelTask =>
    if s.running ≥ 1 then { s with running := s.running - 1 } else s

/-- The lifecycle state reached from startup (`_initialize_webcam`: handle
`None`, no task) by a sequence of events. -/
def webcam_task_run (evs : List WcEvent) : WebcamTaskState :=
  evs.foldl webcam_task_step { handleSet := false, running := 0 }

/-! ## File transfer pipeline
(`_download_file_from_sp_and_upload_to_duet`, `_upload_file_progress`,
`_auto_start_file`) -/

/-- Python `round(x)` / `round(x, 0)`: round half to even. -/
def pyRound (q : ℚ) : ℚ :=
  let f : ℤ := ⌊q⌋
  let frac : ℚ := q - f
  if frac < 1/2 then (f : ℚ)
  else if 1/2 < frac then (f : ℚ) + 1
  else if Even f then (f : ℚ) else (f : ℚ) + 1

/-- The `clamp_progress` lambda passed to the downloader:
`float(max(0.0, min(50.0, x / 2.0)))`. -/
def dlClamp (x : ℚ) : ℚ := max 0 (min 50 (x / 2))

/-- `VirtualClient._upload_file_progress`:
`min(round(50 + (max(0, min(50, progress / 2))), 0), 90.0)`. -/
def upClamp (p : ℚ) : ℚ := min (pyRound (50 + max 0 (min 50 (p / 2)))) 90

/-- The outcome of one `rr_upload_stream` call: an HTTP-level success
carrying the device's `err` body field, or a raised
`aiohttp.ClientResponseError` with the given status. -/
inductive UploadOutcome where
  | ok (err : Int)
  | respError (status : Nat)
  deriving DecidableEq, Repr

/-- One upload attempt as the loop observes it: the raw progress values the
device client reports to the progress callback during the attempt, then
the outcome.  (The progress behaviour of `rr_upload_stream` is not part of
this repository's sources; it is modelled from the spec: the callback
receives the upload progress, mapped by `_upload_file_progress` onto
[50, 90].) -/
structure UploadAttempt where
  prog : List ℚ
  outcome : UploadOutcome

/-- File-progress states used by the pipeline
(`FileProgressStateEnum`). -/
inductive FPState where
  | downloading
  | ready
  | fpError
  deriving DecidableEq, Repr

/-- One assignment to `self.printer.file_progress` (state or percent). -/
inductive Asg where
  | st (s : FPState)
  | pct (q : ℚ)
  deriving DecidableEq, Repr

/-- Events of the upload retry loop, for ordering claims: the start of
attempt `k`, and a `duet.api.reconnect()` call. -/
inductive UpEvent where
  | attemptStart (k : Nat)
  | reconnect
  deriving DecidableEq, Repr

/-- How the upload retry loop ended: `break` on device success, `return`
after a non-zero device `err` (state set to ERROR), a re-raised
non-retryable `ClientResponseError`, or the `while retries > 0` condition
becoming false after retryable failures (the error having been swallowed,
execution continues after the loop). -/
inductive UpExit where
  | brokeOk
  | rejected
  | raised (status : Nat)
  | exhausted
  deriving DecidableEq, Repr

/-- `e.status in {401, 500}`. -/
def retryableStatus (s : Nat) : Bool := s = 401 ∨ s = 500

/-- A trace of the upload retry loop. -/
structure UpRun where
  asgs : List Asg
  events : List UpEvent
  exit : UpExit
  attempts : Nat
  deriving Repr

/-- The upload retry loop of `_download_file_from_sp_and_upload_to_duet`
(`retries = 3; while retries > 0: ... finally: retries -= 1`), with
remaining fuel and the index of the next attempt.  On a retryable
`ClientResponseError` (status 401 or 500) the device is reconnected and
the loop continues; on any other `ClientResponseError` the exception is
re-raised; a non-zero device `err` sets the file-progress state to ERROR
and returns. -/
def upload_go (atts : Nat → UploadAttempt) : Nat → Nat → UpRun
  | 0, k => ⟨[], [], .exhausted, k⟩
  | fuel + 1, k =>
    let a := atts k
    let reps := a.prog.map (fun p => Asg.pct (upClamp p))
    match a.outcome with
    | .ok e =>
      if e = 0 then ⟨reps, [.attemptStart k], .brokeOk, k + 1⟩
      else ⟨reps ++ [Asg.st .fpError], [.attemptStart k], .rejected, k + 1⟩
    | .respError s =>
      if retryableStatus s then
        let r := upload_go atts fuel (k + 1)
        ⟨reps ++ r.asgs, .attemptStart k :: .reconnect :: r.events, r.exit, r.attempts⟩
      else ⟨reps, [.attemptStart k], .raised s, k + 1⟩

/-- The upload retry loop as entered by the pipeline: `retries = 3`,
starting at attempt 0. -/
def upload_retry (atts : Nat → UploadAttempt) : UpRun :=
  upload_go atts 3 0

/-- The readiness-polling loop of `_auto_start_file`: each iteration is
given the elapsed time `e` (seconds since the deadline was set, so
`timeout - time.time() = 400 - e`) and whether `rr_fileinfo` reported
`err == 0`.  On success the loop breaks before the percent update;
otherwise it assigns
`percent = min(99.9, 90.0 + (10 - (400 - e) * 0.025)) = min(99.9, 90 + e/40)`.
Exhausting the polls is the loop's `else: raise TimeoutError` branch. -/
def autostartPct (e : ℚ) : ℚ := min (999/10) (90 + e / 40)

def autostart_go : List (ℚ × Bool) → List Asg × Bool
  | [] => ([], false)
  | (e, ready) :: rest =>
    if ready then ([], true)
    else
      (Asg.pct (autostartPct e) :: (autostart_go rest).1, (autostart_go rest).2)

/-- A full run of the file-transfer pipeline: the download progress values
(each passed through `clamp_progress` and assigned to the percent), the
behaviour of each upload attempt, the `auto_start` flag of the demand, and
the readiness polls. -/
structure PipeScenario where
  dl : List ℚ
  atts : Nat → UploadAttempt
  autoStart : Bool
  polls : List (ℚ × Bool)

/-- How a pipeline run ended. -/
inductive PipeEnd where
  | doneReady
  | rejected
  | raisedUp (status : Nat)
  | timeoutAuto
  deriving DecidableEq, Repr

/-- `_download_file_from_sp_and_upload_to_duet`: set state DOWNLOADING and
percent 0, assign the clamped download progress values, run the upload
retry loop; a `return` (device rejection) or re-raised error ends the run
there; otherwise (including after three swallowed retryable failures) run
`_auto_start_file` when requested and finish with percent 100.0 and state
READY. -/
def pipelinePre (sc : PipeScenario) : List Asg :=
  Asg.st .downloading :: Asg.pct 0 :: sc.dl.map (fun x => Asg.pct (dlClamp x))

def pipeline (sc : PipeScenario) : List Asg × PipeEnd :=
  match (upload_retry sc.atts).exit with
  | .rejected => (pipelinePre sc ++ (upload_retry sc.atts).asgs, .rejected)
  | .raised s => (pipelinePre sc ++ (upload_retry sc.atts).asgs, .raisedUp s)
  | _ =>
    if sc.autoStart then
      if (autostart_go sc.polls).2 then
        (pipelinePre sc ++ (upload_retry sc.atts).asgs ++ (autostart_go sc.polls).1 ++
          [Asg.pct 100, Asg.st .ready], .doneReady)
      else (pipelinePre sc ++ (upload_retry sc.atts).asgs ++ (autostart_go sc.polls).1,
        .timeoutAuto)
    else (pipelinePre sc ++ (upload_retry sc.atts).asgs ++ [Asg.pct 100, Asg.st .ready],
      .doneReady)

/-- The sequence of percent values assigned during a run. -/
def percentsOf (asgs : List Asg) : List ℚ :=
  asgs.filterMap (fun a => match a with | .pct q => some q | _ => none)

/-- The sequence of state values assigned during a run. -/
def stsOf (asgs : List Asg) : List FPState :=
  asgs.filterMap (fun a => match a with | .st s => some s | _ => none)

/-- The last file-progress state assigned during a run. -/
def lastStateOf (asgs : List Asg) : Option FPState :=
  (stsOf asgs).getLast?

/-! ## Concrete inputs used by the claim theorems -/

/-- Object model exhibiting the heater-index special-casing of
`_update_temperatures`: the bed and the single tool both use heater 2
(state `'active'`, active 210, current 200), while heaters 0 and 1 — the
ones the source actually consults for the `'off'` check — are `'off'`. -/
def omC2 : JVal :=
  .obj [("heat", .obj [("heaters", .arr
      [.obj [("state", .str "off"), ("current", .num 20), ("active", .num 55)],
       .obj [("state", .str "off"), ("current", .num 21), ("active", .num 56)],
       .obj [("state", .str "active"), ("current", .num 200), ("active", .num 210)]]),
     ("bedHeaters", .arr [.num 2])]),
    ("tools", .arr [.obj [("heaters", .arr [.num 2])]])]

/-- A printer temperature state with one configured tool. -/
def tempInit1 : TempState := ⟨.num 7, .num 8, [(.num 9, .num 11)]⟩

/-- Object model with heater data present but `bedHeaters` an empty list:
`om['heat']['bedHeaters'][0]` raises `IndexError`. -/
def omC8 : JVal := .obj [("heat", .obj [("heaters", .arr []), ("bedHeaters", .arr [])])]

/-- Object model with no `heat` key at all (`KeyError`). -/
def omC8w : JVal := .obj []

/-- Job status with total filament 10 and raw extrusion -1 (a negative
extrusion datum). -/
def jobC5 : JVal :=
  .obj [("file", .obj [("filament", .arr [.num 10])]), ("rawExtrusion", .num (-1))]

/-- Job status with a non-numeric string for `rawExtrusion`. -/
def jobC5str : JVal :=
  .obj [("file", .obj [("filament", .arr [.num 10])]), ("rawExtrusion", .str "abc")]

/-- Well-formed job status: total filament 10, raw extrusion 5. -/
def jobC5w : JVal :=
  .obj [("file", .obj [("filament", .arr [.num 10])]), ("rawExtrusion", .num 5)]

/-- Object model whose device state string is not a key of either status
table. -/
def omC4 : JVal := .obj [("state", .obj [("status", .str "weird")])]

/-- Upload behaviour where every attempt raises a retryable
`ClientResponseError(500)`. -/
def attsAll500 : Nat → UploadAttempt := fun _ => ⟨[], .respError 500⟩

/-- Upload behaviour where attempt 0 reports progress 80 and then fails
with a 401, and every later attempt reports progress 0 and succeeds. -/
def attsC3 : Nat → UploadAttempt :=
  fun k => if k = 0 then ⟨[80], .respError 401⟩ else ⟨[0], .ok 0⟩

/-- Pipeline scenario built on `attsC3`. -/
def scC3 : PipeScenario := ⟨[], attsC3, false, []⟩

/-- Pipeline scenario: monotone download progress, upload succeeding on the
first attempt, no auto-start. -/
def scC3w : PipeScenario := ⟨[10, 50], (fun _ => ⟨[20, 100], .ok 0⟩), false, []⟩

/-! # Theorems -/

/-! ## C7: device identity on connect -/

/-- Claim C7: on device connect, a stored unique id differing from the
board's reported id forces the printer status OFFLINE and raises the
session-fatal `ValueError`; with no stored id (`None`) the reported id is
accepted as the new stored id, exactly one configuration-changed
notification is emitted, and no error is raised; a matching stored id is
a no-op. -/
theorem on_connect_identity_c7_spec (st : IdentState) (reported : String) :
    (st.duet_unique_id = none →
      on_connect_identity st reported =
        ({ st with duet_unique_id := some reported,
                   configChangedEvents := st.configChangedEvents + 1 }, none)) ∧
    (∀ a, st.duet_unique_id = some a → a ≠ reported →
      on_connect_identity st reported =
        ({ st with status := PrinterStatus.OFFLINE }, some .valueError)) ∧
    (st.duet_unique_id = some reported → on_connect_identity st reported = (st, none)) := by
  refine ⟨?_, ?_, ?_⟩
  · intro h
    simp [on_connect_identity, h]
  · intro a ha hne
    simp [on_connect_identity, ha, hne]
  · intro h
    simp [on_connect_identity, h]

/-- Witness for C7: stored id `"A"` against reported id `"B"` goes OFFLINE
with a `ValueError`; no stored id accepts `"B"` and emits one
configuration-changed event. -/
theorem on_connect_identity_c7_witness :
    on_connect_identity ⟨some "A", .OPERATIONAL, 0⟩ "B" =
      (⟨some "A", .OFFLINE, 0⟩, some .valueError) ∧
    on_connect_identity ⟨none, .OPERATIONAL, 0⟩ "B" =
      (⟨some "B", .OPERATIONAL, 1⟩, none) :=
  ⟨(on_connect_identity_c7_spec ⟨some "A", .OPERATIONAL, 0⟩ "B").2.1 "A" rfl
      (by decide),
   (on_connect_identity_c7_spec ⟨none, .OPERATIONAL, 0⟩ "B").1 rfl⟩

/-! ## C9: webcam frame buffer -/

/-- Any single step preserves the capacity bound. -/
theorem frame_buffer_step_capacity (buf : List Nat) (hb : buf.length ≤ 3) (op : BufOp) :
    (frame_buffer_step buf op).length ≤ 3 := by
  cases op with
  | put f =>
    show (frame_buffer_put buf f).length ≤ 3
    by_cases h3 : buf.length = 3
    · simp only [frame_buffer_put, if_pos h3, List.length_append, List.length_tail,
        List.length_cons, List.length_nil]
      omega
    · simp only [frame_buffer_put, if_neg h3, List.length_append,
        List.length_cons, List.length_nil]
      omega
  | take =>
    simp only [frame_buffer_step, List.length_tail]
    omega

/-- Folding operations from a within-capacity buffer stays within
capacity. -/
theorem frame_buffer_fold_capacity (ops : List BufOp) (buf : List Nat) (hb : buf.length ≤ 3) :
    (ops.foldl frame_buffer_step buf).length ≤ 3 := by
  induction ops generalizing buf with
  | nil => simpa using hb
  | cons op rest ih =>
    simp only [List.foldl_cons]
    exact ih _ (frame_buffer_step_capacity buf hb op)

/-- Pure producer folds keep exactly the most recent frames. -/
theorem frame_buffer_put_fold (frames : List Nat) (buf : List Nat) (hb : buf.length ≤ 3) :
    (frames.map BufOp.put).foldl frame_buffer_step buf =
      (buf ++ frames).drop ((buf ++ frames).length - 3) := by
  induction frames generalizing buf with
  | nil =>
    have h0 : buf.length - 3 = 0 := by omega
    simp [h0]
  | cons f fs ih =>
    simp only [List.map_cons, List.foldl_cons]
    have hstep : frame_buffer_step buf (.put f) = frame_buffer_put buf f := rfl
    rw [hstep]
    by_cases h3 : buf.length = 3
    · have hne : buf ≠ [] := by
        intro h
        rw [h] at h3
        simp at h3
      have hput : frame_buffer_put buf f = buf.tail ++ [f] := by
        simp [frame_buffer_put, h3]
      rw [hput, ih (buf.tail ++ [f]) (by simp [List.length_tail]; omega)]
      have htl : (buf.tail ++ [f]) ++ fs = ((buf ++ f :: fs).drop 1) := by
        cases buf with
        | nil => exact absurd rfl hne
        | cons b bs => simp
      rw [htl, List.drop_drop]
      have : (buf ++ f :: fs).length - 3 = 1 + (((buf ++ f :: fs).drop 1).length - 3) := by
        simp only [List.length_drop, List.length_append, List.length_cons]
        omega
      rw [this]
    · have hput : frame_buffer_put buf f = buf ++ [f] := by
        simp [frame_buffer_put, h3]
      rw [hput, ih (buf ++ [f]) (by simp; omega)]
      simp

/-- Claim C9: the webcam frame buffer never holds more than 3 frames; an
insertion into a full buffer evicts the oldest frame before adding the new
one; and a sequence of insertions retains exactly the most recent frames
(latest-wins), so producers are never blocked on a full buffer. -/
theorem frame_buffer_c9_spec :
    (∀ ops : List BufOp, (frame_buffer_run ops).length ≤ 3) ∧
    (∀ (buf : List Nat) (x : Nat), buf.length = 3 →
      frame_buffer_put buf x = buf.tail ++ [x]) ∧
    (∀ frames : List Nat,
      frame_buffer_run (frames.map BufOp.put) = frames.drop (frames.length - 3)) := by
  refine ⟨?_, ?_, ?_⟩
  · intro ops
    exact frame_buffer_fold_capacity ops [] (by simp)
  · intro buf x h3
    simp [frame_buffer_put, h3]
  · intro frames
    have h := frame_buffer_put_fold frames [] (by simp)
    simpa [frame_buffer_run] using h

/-- Witness for C9: inserting a 4th frame into a full buffer evicts the
oldest; four insertions retain the last three frames. -/
theorem frame_buffer_c9_witness :
    frame_buffer_put [1, 2, 3] 4 = [2, 3, 4] ∧
    frame_buffer_run ([1, 2, 3, 4].map BufOp.put) = [2, 3, 4] := by
  constructor
  · have h := frame_buffer_c9_spec.2.1 [1, 2, 3] 4 (by decide)
    simpa using h
  · have h := frame_buffer_c9_spec.2.2 [1, 2, 3, 4]
    simpa using h

/-! ## C10: at most one webcam distribution task -/

/-- The inductive lifecycle invariant: a cleared handle means no running
task, and never more than one task runs. -/
def WebcamTaskInv (s : WebcamTaskState) : Prop :=
  (s.handleSet = false → s.running = 0) ∧ s.running ≤ 1

/-- The invariant is preserved by every lifecycle event. -/
theorem webcam_task_step_inv (s : WebcamTaskState) (hs : WebcamTaskInv s) (e : WcEvent) :
    WebcamTaskInv (webcam_task_step s e) := by
  obtain ⟨h0, h1⟩ := hs
  cases e with
  | demand uriSet =>
    by_cases hc : s.handleSet = false ∧ uriSet = true
    · have hr0 := h0 hc.1
      simp only [webcam_task_step, if_pos hc]
      refine ⟨fun h => by simp at h, ?_⟩
      show s.running + 1 ≤ 1
      omega
    · simp only [webcam_task_step, if_neg hc]
      exact ⟨h0, h1⟩
  | exitNormal =>
    by_cases hr : s.running ≥ 1
    · simp only [webcam_task_step, if_pos hr]
      refine ⟨fun _ => ?_, ?_⟩
      · show s.running - 1 = 0
        omega
      · show s.running - 1 ≤ 1
        omega
    · simp only [webcam_task_step, if_neg hr]
      exact ⟨h0, h1⟩
  | cancelTask =>
    by_cases hr : s.running ≥ 1
    · simp only [webcam_task_step, if_pos hr]
      refine ⟨fun h => ?_, ?_⟩
      · have := h0 h
        show s.running - 1 = 0
        omega
      · show s.running - 1 ≤ 1
        omega
    · simp only [webcam_task_step, if_neg hr]
      exact ⟨h0, h1⟩

/-- The invariant holds along every run from startup. -/
theorem webcam_task_run_inv (evs : List WcEvent) : WebcamTaskInv (webcam_task_run evs) := by
  have hgen : ∀ (l : List WcEvent) (s : WebcamTaskState), WebcamTaskInv s →
      WebcamTaskInv (l.foldl webcam_task_step s) := by
    intro l
    induction l with
    | nil => intro s hs; simpa using hs
    | cons e rest ih =>
      intro s hs
      simp only [List.foldl_cons]
      exact ih _ (webcam_task_step_inv s hs e)
  exact hgen evs _ ⟨fun _ => rfl, by decide⟩

/-- Claim C10: at most one webcam distribution task exists at any time —
along every event sequence from startup the number of running
distribution tasks is at most 1; and while the stored handle is set, a
further snapshot demand changes nothing (no second task is spawned). -/
theorem webcam_task_c10_spec :
    (∀ evs : List WcEvent, (webcam_task_run evs).running ≤ 1) ∧
    (∀ (evs : List WcEvent) (uriSet : Bool),
      (webcam_task_run evs).handleSet = true →
      webcam_task_step (webcam_task_run evs) (.demand uriSet) = webcam_task_run evs) := by
  constructor
  · intro evs
    exact (webcam_task_run_inv evs).2
  · intro evs uriSet h
    simp [webcam_task_step, h]

/-- Witness for C10: after one demand spawned a task, a second demand while
the handle is set is a no-op. -/
theorem webcam_task_c10_witness :
    webcam_task_step (webcam_task_run [.demand true]) (.demand true) =
      webcam_task_run [.demand true] :=
  webcam_task_c10_spec.2 [.demand true] true rfl

/-! ## C2: temperature targets are gated on heaters 0/1, not the heater in
use -/

/-- Claim C2 (defect in the code): on `omC2` the bed and the tool both use
heater 2, whose state is `'active'` (not `'off'`) with active temperature
210 — yet `_update_temperatures` sets both targets to `0.0`, because it
consults `heaters[0]['state']` for the bed and `heaters[1]['state']` for
every tool instead of the heater index actually in use. -/
theorem update_temperatures_c2_bug :
    (update_temperatures omC2 tempInit1).1.bedActual = JVal.num 200 ∧
    (update_temperatures omC2 tempInit1).1.bedTarget = JVal.num 0 ∧
    (update_temperatures omC2 tempInit1).1.tools = [(JVal.num 200, JVal.num 0)] ∧
    (update_temperatures omC2 tempInit1).2 = none ∧
    ((jGetStr omC2 "heat").bind (fun h => jGetStr h "heaters")).bind
        (fun hs => (jIndexVal hs (.num 2)).bind (fun h => jGetStr h "state")) =
      .ok (.str "active") ∧
    ((jGetStr omC2 "heat").bind (fun h => jGetStr h "heaters")).bind
        (fun hs => (jIndexVal hs (.num 2)).bind (fun h => jGetStr h "active")) =
      .ok (.num 210) :=
  ⟨rfl, rfl, rfl, rfl, rfl, rfl⟩

/-! ## C8: missing heater data in the object-model handler -/

/-- The tool loop never changes the number of tool entries. -/
theorem update_tool_temperatures_length (om heatersV : JVal) :
    ∀ (idx : Nat) (ts : List (JVal × JVal)),
      (update_tool_temperatures om heatersV idx ts).1.length = ts.length := by
  intro idx ts
  induction ts generalizing idx with
  | nil => rfl
  | cons p rest ih =>
    obtain ⟨a, t⟩ := p
    simp only [update_tool_temperatures]
    split
    · simp
    · split
      · simp
      · split
        · simp
        · split
          · simp
          · simp [ih]

/-- `_update_temperatures` never changes the number of tool entries. -/
theorem update_temperatures_tools_length (om : JVal) (st : TempState) :
    (update_temperatures om st).1.tools.length = st.tools.length := by
  unfold update_temperatures
  split
  · rfl
  · split
    · rfl
    · split
      · rfl
      · split
        · rfl
        · split
          · rfl
          · simp [update_tool_temperatures_length]

/-- Counterexample to claim C8: with heater data present but an empty
`bedHeaters` list, `om['heat']['bedHeaters'][0]` raises `IndexError`,
which the `except KeyError` handler of `_duet_on_objectmodel` does not
catch: the exception escapes the object-model handler (the claim says no
exception escapes). -/
theorem objectmodel_temp_update_c8_counterexample :
    (objectmodel_temp_update omC8 tempInit1).2 = some PyErr.indexError := rfl

/-- Claim C8 (amended): a `KeyError` from missing dict keys or heater
records is caught — bed actual and tool-0 actual are set to `0.0` and
nothing escapes — provided at least one tool-temperature entry exists
(with none, the handler's own `tool_temperatures[0]` raises
`IndexError`); but any non-`KeyError` exception (in particular the
`IndexError` from an absent list entry) escapes the handler. -/
theorem objectmodel_temp_update_c8_spec (om : JVal) (st : TempState) :
    ((update_temperatures om st).2 = some PyErr.keyError → st.tools ≠ [] →
      (objectmodel_temp_update om st).2 = none ∧
      (objectmodel_temp_update om st).1.bedActual = JVal.num 0 ∧
      ∃ t rest, (objectmodel_temp_update om st).1.tools = (JVal.num 0, t) :: rest) ∧
    ((update_temperatures om st).2 = some PyErr.keyError → st.tools = [] →
      (objectmodel_temp_update om st).2 = some PyErr.indexError) ∧
    (∀ e, (update_temperatures om st).2 = some e → e ≠ PyErr.keyError →
      (objectmodel_temp_update om st).2 = some e) ∧
    ((update_temperatures om st).2 = none → (objectmodel_temp_update om st).2 = none) := by
  have hlen := update_temperatures_tools_length om st
  rcases hu : update_temperatures om st with ⟨st1, err⟩
  rw [hu] at hlen
  refine ⟨?_, ?_, ?_, ?_⟩
  · intro herr hne
    have herr2 : err = some PyErr.keyError := herr
    subst herr2
    have h1 : st1.tools ≠ [] := by
      intro h
      rw [h] at hlen
      exact hne (List.length_eq_zero.mp hlen.symm)
    rcases ht : st1.tools with _ | ⟨⟨a, t⟩, rest⟩
    · exact absurd ht h1
    · refine ⟨?_, ?_, t, rest, ?_⟩ <;> simp [objectmodel_temp_update, hu, ht]
  · intro herr hnil
    have herr2 : err = some PyErr.keyError := herr
    subst herr2
    have h1 : st1.tools = [] := by
      rw [hnil] at hlen
      exact List.length_eq_zero.mp hlen
    simp only [objectmodel_temp_update, hu, h1]
  · intro e herr hne
    have herr2 : err = some e := herr
    subst herr2
    cases e with
    | keyError => exact absurd rfl hne
    | typeError => simp [objectmodel_temp_update, hu]
    | indexError => simp [objectmodel_temp_update, hu]
    | valueError => simp [objectmodel_temp_update, hu]
    | zeroDivisionError => simp [objectmodel_temp_update, hu]
  · intro herr
    have herr2 : err = none := herr
    subst herr2
    simp [objectmodel_temp_update, hu]

/-- Witness for C8 (amended): a model with no `heat` key raises `KeyError`,
the handler catches it, zeroes the bed and tool-0 actuals, and nothing
escapes. -/
theorem objectmodel_temp_update_c8_witness :
    (objectmodel_temp_update omC8w tempInit1).2 = none ∧
    (objectmodel_temp_update omC8w tempInit1).1.bedActual = JVal.num 0 ∧
    ∃ t rest, (objectmodel_temp_update omC8w tempInit1).1.tools = (JVal.num 0, t) :: rest :=
  (objectmodel_temp_update_c8_spec omC8w tempInit1).1 rfl (by simp [tempInit1])

/-! ## C6: G-code allow-list filtering -/

/-- Only an `M997` token takes the self-upgrade branch. -/
theorem dispatch_gcode_item_eq_upgraded {inSetup : Bool} {c : String}
    (h : dispatch_gcode_item inSetup c = .upgraded) : c = "M997" := by
  by_cases h1 : allowed_commands.contains c ∧ inSetup = false
  · rw [dispatch_gcode_item, if_pos h1] at h
    exact absurd h (by simp)
  · by_cases h2 : c = "M300" ∧ inSetup = true
    · rw [dispatch_gcode_item, if_neg h1, if_pos h2] at h
      exact absurd h (by simp)
    · by_cases h3 : c = "M997"
      · exact h3
      · rw [dispatch_gcode_item, if_neg h1, if_neg h2, if_neg h3] at h
        exact absurd h (by simp)

/-- Every token before which no `M997` occurs is processed, and its effect
is its own dispatch result. -/
theorem deferred_gcode_loop_get (inSetup : Bool) :
    ∀ (tokens : List String) (i : Nat),
      (∀ j, j ≤ i → tokens.get? j ≠ some "M997") →
      (deferred_gcode_loop inSetup tokens).1.get? i =
        (tokens.get? i).map (dispatch_gcode_item inSetup) := by
  intro tokens
  induction tokens with
  | nil =>
    intro i hM
    simp [deferred_gcode_loop]
  | cons c rest ih =>
    intro i hM
    have hc : c ≠ "M997" := by
      have h0 := hM 0 (Nat.zero_le i)
      simpa using h0
    have hact : dispatch_gcode_item inSetup c ≠ .upgraded :=
      fun h => hc (dispatch_gcode_item_eq_upgraded h)
    have hloop : (deferred_gcode_loop inSetup (c :: rest)).1 =
        dispatch_gcode_item inSetup c :: (deferred_gcode_loop inSetup rest).1 := by
      cases hd : dispatch_gcode_item inSetup c with
      | upgraded => exact absurd hd hact
      | forwarded code => simp [deferred_gcode_loop, hd]
      | setupPrompt => simp [deferred_gcode_loop, hd]
      | blocked code => simp [deferred_gcode_loop, hd]
    rw [hloop]
    cases i with
    | zero => simp
    | succ i2 =>
      simp only [List.get?_cons_succ]
      refine ih i2 (fun j hj => ?_)
      have hj1 := hM (j + 1) (Nat.succ_le_succ hj)
      simpa using hj1

/-- Claim C6: in a parsed batch, any token preceded by no `M997` is
processed and yields exactly its dispatch result (so rejection of one
token never prevents processing of the rest); an allow-listed opcode is
forwarded precisely when the session is not in setup mode; and any other
non-special-cased opcode yields a per-token blocked result. -/
theorem deferred_gcode_c6_spec (inSetup : Bool) (tokens : List String) (i : Nat) (c : String)
    (hi : tokens.get? i = some c)
    (hM : ∀ j, j ≤ i → tokens.get? j ≠ some "M997") :
    (deferred_gcode_loop inSetup tokens).1.get? i =
      some (dispatch_gcode_item inSetup c) ∧
    (∀ d, allowed_commands.contains d = true →
      dispatch_gcode_item false d = .forwarded d ∧
      dispatch_gcode_item true d = .blocked d) ∧
    (∀ d, allowed_commands.contains d = false → d ≠ "M300" → d ≠ "M997" →
      dispatch_gcode_item inSetup d = .blocked d) := by
  refine ⟨?_, ?_, ?_⟩
  · rw [deferred_gcode_loop_get inSetup tokens i hM, hi]
    rfl
  · intro d hd
    have hmem : d ∈ allowed_commands := List.elem_iff.mp hd
    constructor
    · fin_cases hmem <;> rfl
    · fin_cases hmem <;> rfl
  · intro d h1 h2 h3
    have hcond : ¬(allowed_commands.contains d ∧ inSetup = false) := by
      intro hand
      rw [h1] at hand
      exact Bool.false_ne_true hand.1
    have hcond2 : ¬(d = "M300" ∧ inSetup = true) := fun hand => h2 hand.1
    rw [dispatch_gcode_item, if_neg hcond, if_neg hcond2, if_neg h3]

/-- Witness for C6: in the batch `["G1", "M999"]` outside setup mode, the
allowed `G1` is forwarded and the disallowed `M999` yields a blocked
result; both tokens are processed. -/
theorem deferred_gcode_c6_witness :
    (deferred_gcode_loop false ["G1", "M999"]).1.get? 0 =
      some (GAction.forwarded "G1") ∧
    (deferred_gcode_loop false ["G1", "M999"]).1.get? 1 =
      some (GAction.blocked "M999") := by
  constructor
  · have h := (deferred_gcode_c6_spec false ["G1", "M999"] 0 "G1" rfl
      (by
        intro j hj
        have hj0 : j = 0 := Nat.le_zero.mp hj
        subst hj0
        simp)).1
    rw [h]
    rfl
  · have h := (deferred_gcode_c6_spec false ["G1", "M999"] 1 "M999" rfl
      (by
        intro j hj
        match j, hj with
        | 0, _ => simp
        | 1, _ => simp)).1
    rw [h]
    rfl

/-! ## C5: job progress -/

/-- A successful run of the progress computation is clamped above at
100. -/
theorem update_job_progress_body_ok_le (job : JVal) (q : ℚ)
    (h : update_job_progress_body job = .ok q) : q ≤ 100 := by
  unfold update_job_progress_body at h
  split at h
  · exact absurd h (by simp)
  · split at h
    · exact absurd h (by simp)
    · split at h
      · exact absurd h (by simp)
      · split at h
        · exact absurd h (by simp)
        · split at h
          · exact absurd h (by simp)
          · injection h with h2
            rw [← h2]
            exact min_le_right _ _

/-- Counterexample to claim C5: with total filament 10 and raw extrusion
-1, `_update_job_progress` sets progress to -10 — there is no lower clamp,
so the claimed "clamped into [0,100]" fails. -/
theorem update_job_progress_c5_counterexample :
    update_job_progress jobC5 = .ok (-10) ∧ ((-10 : ℚ) < 0) := by
  constructor
  · have h1 : (jGetStr jobC5 "file").bind (fun f => jGetStr f "filament") =
        .ok (.arr [.num 10]) := rfl
    have h2 : pySumVal (.arr [.num 10]) = .ok (10 + 0) := rfl
    have h4 : jGetStr jobC5 "rawExtrusion" = .ok (.num (-1)) := rfl
    have h5 : pyFloat (.num (-1)) = .ok (-1) := rfl
    have hbody : update_job_progress_body jobC5 =
        .ok (min ((-1 : ℚ) * 100 / (10 + 0)) 100) := by
      simp only [update_job_progress_body, h1, h2, h4, h5]
      rw [if_neg (by norm_num : ¬((10 : ℚ) + 0 = 0))]
    simp only [update_job_progress, hbody]
    norm_num
  · norm_num

/-- Claim C5 (amended): job progress is `current * 100 / total` clamped
above at 100 only (a negative raw extrusion yields a negative progress);
a zero total or a missing/`None`/list/dict-typed field raises
`ZeroDivisionError`/`KeyError`/`TypeError`, which are caught and force
progress 0.0; but a non-numeric string `rawExtrusion` raises `ValueError`,
which escapes. -/
theorem update_job_progress_c5_spec :
    (∀ job q, update_job_progress job = .ok q → q ≤ 100) ∧
    (∀ job filV total rawV current,
      (jGetStr job "file").bind (fun f => jGetStr f "filament") = .ok filV →
      pySumVal filV = .ok total → total ≠ 0 →
      jGetStr job "rawExtrusion" = .ok rawV → pyFloat rawV = .ok current →
      update_job_progress job = .ok (min (current * 100 / total) 100)) ∧
    (∀ job e, update_job_progress_body job = .error e →
      e ≠ PyErr.valueError → e ≠ PyErr.indexError →
      update_job_progress job = .ok 0) ∧
    (∀ job, update_job_progress_body job = .error .valueError →
      update_job_progress job = .error .valueError) := by
  refine ⟨?_, ?_, ?_, ?_⟩
  · intro job q h
    unfold update_job_progress at h
    split at h
    · rename_i p heq
      injection h with h2
      rw [← h2]
      exact update_job_progress_body_ok_le job p heq
    · injection h with h2
      rw [← h2]
      norm_num
    · injection h with h2
      rw [← h2]
      norm_num
    · injection h with h2
      rw [← h2]
      norm_num
    · exact absurd h (by simp)
  · intro job filV total rawV current h1 h2 h3 h4 h5
    have hbody : update_job_progress_body job = .ok (min (current * 100 / total) 100) := by
      simp only [update_job_progress_body, h1, h2, h4, h5]
      rw [if_neg h3]
    simp only [update_job_progress, hbody]
  · intro job e hb h1 h2
    cases e with
    | keyError => simp [update_job_progress, hb]
    | typeError => simp [update_job_progress, hb]
    | zeroDivisionError => simp [update_job_progress, hb]
    | valueError => exact absurd rfl h1
    | indexError => exact absurd rfl h2
  · intro job hb
    simp [update_job_progress, hb]

/-- Witness for C5 (amended): total filament 10, raw extrusion 5 gives
progress 50. -/
theorem update_job_progress_c5_witness : update_job_progress jobC5w = .ok 50 := by
  have h := update_job_progress_c5_spec.2.1 jobC5w (.arr [.num 10]) (10 + 0) (.num 5) 5
    rfl rfl (by norm_num) rfl rfl
  rw [h]
  norm_num

/-! ## C4: status table selection -/

/-- The code-side printing test (`_is_printing`, with its
`KeyError`/`TypeError`-as-False handling) agrees with the spec-side
reading: printing-family status, or a non-null job filename in the object
model. -/
theorem is_printing_iff (status : PrinterStatus) (om : JVal) :
    is_printing status om = true ↔
      (status = .PRINTING ∨ status = .PAUSED ∨ status = .PAUSING ∨ status = .RESUMING ∨
        specReportsJobFilename om = true) := by
  unfold is_printing specReportsJobFilename
  by_cases hs : status = .PRINTING ∨ status = .PAUSED ∨ status = .PAUSING ∨ status = .RESUMING
  · rw [if_pos hs]
    simp only [true_iff]
    rcases hs with h | h | h | h
    · exact Or.inl h
    · exact Or.inr (Or.inl h)
    · exact Or.inr (Or.inr (Or.inl h))
    · exact Or.inr (Or.inr (Or.inr (Or.inl h)))
  · rw [if_neg hs]
    rcases hj : (jGetStr om "job").bind (fun j => jGetStr j "file") with e | jf
    · simp only [hj]
      tauto
    · cases jf with
      | obj fields =>
        rcases hl : jLookup fields "filename" with _ | v
        · simp only [hj, pyContains, hl, Option.isSome_none]
          tauto
        · simp only [hj, pyContains, hl, Option.isSome_some, jGetStr]
          tauto
      | arr xs =>
        cases ha : xs.any (fun x => jEqStr x "filename") with
        | false =>
          simp only [hj, pyContains, ha]
          tauto
        | true =>
          simp only [hj, pyContains, ha, jGetStr]
          tauto
      | str s =>
        cases hdec : decide ("filename".toList <:+: s.toList) with
        | false =>
          simp only [hj, pyContains, hdec]
          tauto
        | true =>
          simp only [hj, pyContains, hdec, jGetStr]
          tauto
      | num q =>
        simp only [hj, pyContains]
        tauto
      | bool b =>
        simp only [hj, pyContains]
        tauto
      | null =>
        simp only [hj, pyContains]
        tauto

/-- Claim C4: the status mapper equals the spec-side mapping — the
printing-biased table is selected exactly when the current status is
printing-family or the object model reports a non-null job filename — and
any device state string present in neither table maps to OFFLINE. -/
theorem map_duet_state_c4_spec :
    (∀ om status, map_duet_state_to_printer_status om status = specStatusMapping om status) ∧
    (∀ om status s,
      (jGetStr om "state").bind (fun v => jGetStr v "status") = .ok (.str s) →
      List.lookup s duet_state_simplyprint_status_mapping = none →
      List.lookup s duet_state_simplyprint_status_while_printing_mapping = none →
      map_duet_state_to_printer_status om status = .OFFLINE) := by
  constructor
  · intro om status
    simp only [map_duet_state_to_printer_status, specStatusMapping]
    by_cases hp : is_printing status om = true
    · rw [if_pos hp, if_pos ((is_printing_iff status om).mp hp)]
    · rw [if_neg hp, if_neg (fun hc => hp ((is_printing_iff status om).mpr hc))]
  · intro om status s h1 h2 h3
    simp only [map_duet_state_to_printer_status, h1]
    by_cases hp : is_printing status om = true
    · rw [if_pos hp]
      simp [statusTableGet, h3]
    · rw [if_neg hp]
      simp [statusTableGet, h2]

/-- Witness for C4: an unmapped device state string (`"weird"`) resolves to
OFFLINE. -/
theorem map_duet_state_c4_witness :
    map_duet_state_to_printer_status omC4 .OPERATIONAL = .OFFLINE :=
  map_duet_state_c4_spec.2 omC4 .OPERATIONAL "weird" rfl rfl rfl

/-! ## C1: upload retry loop -/

/-- The loop makes at most `fuel` further attempts. -/
theorem upload_go_attempts_le (atts : Nat → UploadAttempt) :
    ∀ (fuel k : Nat), (upload_go atts fuel k).attempts ≤ k + fuel := by
  intro fuel
  induction fuel with
  | zero =>
    intro k
    simp [upload_go]
  | succ f ih =>
    intro k
    unfold upload_go
    rcases ho : (atts k).outcome with e | s
    · by_cases he : e = 0
      · simp only [ho, he, if_pos]
        omega
      · simp only [ho, if_neg he]
        omega
    · cases hrs : retryableStatus s with
      | true =>
        simp only [ho, hrs, if_pos]
        have := ih (k + 1)
        omega
      | false =>
        simp only [ho, hrs]
        simp only [Bool.false_eq_true, if_false]
        omega

/-- With fuel left, the loop's event trace starts with the start of attempt
`k`. -/
theorem upload_go_events_head (atts : Nat → UploadAttempt) (fuel k : Nat) (hf : 1 ≤ fuel) :
    ∃ rest, (upload_go atts fuel k).events = UpEvent.attemptStart k :: rest := by
  cases fuel with
  | zero => omega
  | succ f =>
    unfold upload_go
    rcases ho : (atts k).outcome with e | s
    · by_cases he : e = 0
      · exact ⟨[], by simp [ho, he]⟩
      · exact ⟨[], by simp [ho, he]⟩
    · cases hrs : retryableStatus s with
      | true =>
        exact ⟨UpEvent.reconnect :: (upload_go atts f (k + 1)).events, by simp [ho, hrs]⟩
      | false => exact ⟨[], by simp [ho, hrs]⟩

/-- A retryable failure at attempt `k` reconnects and continues with the
next attempt. -/
theorem upload_go_retryable_cons (atts : Nat → UploadAttempt) (f k s : Nat)
    (ho : (atts k).outcome = .respError s) (hr : retryableStatus s = true) :
    upload_go atts (f + 1) k =
      ⟨(atts k).prog.map (fun p => Asg.pct (upClamp p)) ++ (upload_go atts f (k + 1)).asgs,
       UpEvent.attemptStart k :: UpEvent.reconnect :: (upload_go atts f (k + 1)).events,
       (upload_go atts f (k + 1)).exit,
       (upload_go atts f (k + 1)).attempts⟩ := by
  conv_lhs => rw [upload_go]
  simp [ho, hr]

/-- A non-retryable `ClientResponseError` at attempt `k` aborts the loop at
once: the exception is re-raised. -/
theorem upload_go_raise (atts : Nat → UploadAttempt) (f k s : Nat)
    (ho : (atts k).outcome = .respError s) (hr : retryableStatus s = false) :
    upload_go atts (f + 1) k =
      ⟨(atts k).prog.map (fun p => Asg.pct (upClamp p)),
       [UpEvent.attemptStart k], .raised s, k + 1⟩ := by
  conv_lhs => rw [upload_go]
  simp [ho, hr]

/-- With retryable failures at attempt `k` while fuel remains, attempt
`k + 1` starts right after the reconnect. -/
theorem upload_go_retryable_step (atts : Nat → UploadAttempt) (fuel k : Nat) (hf : 2 ≤ fuel)
    (s : Nat) (ho : (atts k).outcome = .respError s) (hr : retryableStatus s = true) :
    ∃ post, (upload_go atts fuel k).events =
      UpEvent.attemptStart k :: UpEvent.reconnect :: UpEvent.attemptStart (k + 1) :: post := by
  cases fuel with
  | zero => omega
  | succ f =>
    obtain ⟨rest, hrest⟩ := upload_go_events_head atts f (k + 1) (by omega)
    refine ⟨rest, ?_⟩
    rw [upload_go_retryable_cons atts f k s ho hr]
    simp [hrest]

/-- Claim C1 (amended): the upload retry loop makes at most 3 attempts in
total; a retryable failure (401-class or 500) triggers a reconnect before
the next attempt starts; a non-retryable `ClientResponseError` aborts
immediately and is re-raised; but when all 3 attempts fail with retryable
errors the error does NOT propagate — the loop condition just runs out
(`exhausted`) and the pipeline continues into its success epilogue. -/
theorem upload_retry_c1_spec (atts : Nat → UploadAttempt) :
    ((upload_retry atts).attempts ≤ 3) ∧
    (∀ k, k ≤ 1 →
      (∀ j, j ≤ k → ∃ s, (atts j).outcome = .respError s ∧ retryableStatus s = true) →
      ∃ pre post, (upload_retry atts).events =
        pre ++ UpEvent.attemptStart k :: UpEvent.reconnect ::
          UpEvent.attemptStart (k + 1) :: post) ∧
    (∀ k s, k ≤ 2 →
      (∀ j, j < k → ∃ sj, (atts j).outcome = .respError sj ∧ retryableStatus sj = true) →
      (atts k).outcome = .respError s → retryableStatus s = false →
      (upload_retry atts).exit = .raised s ∧ (upload_retry atts).attempts = k + 1) ∧
    ((∀ j, j < 3 → ∃ sj, (atts j).outcome = .respError sj ∧ retryableStatus sj = true) →
      (upload_retry atts).exit = .exhausted ∧ (upload_retry atts).attempts = 3) ∧
    (∀ sc : PipeScenario, sc.atts = atts → (upload_retry atts).exit = .exhausted →
      sc.autoStart = false → (pipeline sc).2 = .doneReady) := by
  refine ⟨?_, ?_, ?_, ?_, ?_⟩
  · have h := upload_go_attempts_le atts 3 0
    simpa [upload_retry] using h
  · intro k hk hretry
    match k, hk with
    | 0, _ =>
      obtain ⟨s0, ho0, hr0⟩ := hretry 0 (by omega)
      obtain ⟨post, hpost⟩ := upload_go_retryable_step atts 3 0 (by omega) s0 ho0 hr0
      exact ⟨[], post, by simpa [upload_retry] using hpost⟩
    | 1, _ =>
      obtain ⟨s0, ho0, hr0⟩ := hretry 0 (by omega)
      obtain ⟨s1, ho1, hr1⟩ := hretry 1 (by omega)
      obtain ⟨post, hpost⟩ := upload_go_retryable_step atts 2 1 (by omega) s1 ho1 hr1
      have hcons := upload_go_retryable_cons atts 2 0 s0 ho0 hr0
      norm_num at hcons
      refine ⟨[UpEvent.attemptStart 0, UpEvent.reconnect], post, ?_⟩
      rw [show upload_retry atts = upload_go atts 3 0 from rfl, hcons]
      simp [hpost]
  · intro k s hk hretry ho hr
    match k, hk with
    | 0, _ =>
      have h := upload_go_raise atts 2 0 s ho hr
      norm_num at h
      rw [show upload_retry atts = upload_go atts 3 0 from rfl, h]
      exact ⟨rfl, rfl⟩
    | 1, _ =>
      obtain ⟨s0, ho0, hr0⟩ := hretry 0 (by omega)
      have hc0 := upload_go_retryable_cons atts 2 0 s0 ho0 hr0
      norm_num at hc0
      have h := upload_go_raise atts 1 1 s ho hr
      norm_num at h
      rw [show upload_retry atts = upload_go atts 3 0 from rfl, hc0, h]
      exact ⟨rfl, rfl⟩
    | 2, _ =>
      obtain ⟨s0, ho0, hr0⟩ := hretry 0 (by omega)
      obtain ⟨s1, ho1, hr1⟩ := hretry 1 (by omega)
      have hc0 := upload_go_retryable_cons atts 2 0 s0 ho0 hr0
      norm_num at hc0
      have hc1 := upload_go_retryable_cons atts 1 1 s1 ho1 hr1
      norm_num at hc1
      have h := upload_go_raise atts 0 2 s ho hr
      norm_num at h
      rw [show upload_retry atts = upload_go atts 3 0 from rfl, hc0, hc1, h]
      exact ⟨rfl, rfl⟩
  · intro hretry
    obtain ⟨s0, ho0, hr0⟩ := hretry 0 (by omega)
    obtain ⟨s1, ho1, hr1⟩ := hretry 1 (by omega)
    obtain ⟨s2, ho2, hr2⟩ := hretry 2 (by omega)
    have hc0 := upload_go_retryable_cons atts 2 0 s0 ho0 hr0
    norm_num at hc0
    have hc1 := upload_go_retryable_cons atts 1 1 s1 ho1 hr1
    norm_num at hc1
    have hc2 := upload_go_retryable_cons atts 0 2 s2 ho2 hr2
    norm_num at hc2
    rw [show upload_retry atts = upload_go atts 3 0 from rfl, hc0, hc1, hc2]
    exact ⟨rfl, rfl⟩
  · intro sc hsc hex hauto
    unfold pipeline
    rw [hsc, hex, hauto]
    simp

/-- Counterexample to claim C1: with every attempt failing with a
retryable 500, exactly 3 attempts are made but NO error propagates out of
the loop — the exit is `exhausted`, not a raise — and the pipeline then
ends `doneReady` as if the upload had succeeded. -/
theorem upload_retry_c1_counterexample :
    (upload_retry attsAll500).attempts = 3 ∧
    (upload_retry attsAll500).exit = .exhausted ∧
    (∀ s, (upload_retry attsAll500).exit ≠ .raised s) ∧
    (pipeline ⟨[], attsAll500, false, []⟩).2 = .doneReady := by
  refine ⟨rfl, rfl, ?_, rfl⟩
  intro s h
  rw [show (upload_retry attsAll500).exit = .exhausted from rfl] at h
  exact absurd h (by simp)

/-- Witness for C1 (amended): all three attempts retryable — 3 attempts,
exhausted exit, and a reconnect between attempts 0 and 1. -/
theorem upload_retry_c1_witness :
    ((upload_retry attsAll500).exit = .exhausted ∧ (upload_retry attsAll500).attempts = 3) ∧
    ∃ pre post, (upload_retry attsAll500).events =
      pre ++ UpEvent.attemptStart 0 :: UpEvent.reconnect ::
        UpEvent.attemptStart 1 :: post :=
  ⟨(upload_retry_c1_spec attsAll500).2.2.2.1 (fun j hj => ⟨500, rfl, rfl⟩),
   (upload_retry_c1_spec attsAll500).2.1 0 (by omega) (fun j hj => ⟨500, rfl, rfl⟩)⟩

/-! ## C3: file-progress percent sequence -/

/-- Round-half-even never goes below the floor. -/
theorem pyRound_ge_floor (q : ℚ) : (⌊q⌋ : ℚ) ≤ pyRound q := by
  simp only [pyRound]
  split
  · exact le_refl _
  · split
    · linarith
    · split
      · exact le_refl _
      · linarith

/-- Round-half-even never exceeds floor + 1. -/
theorem pyRound_le_floor_add_one (q : ℚ) : pyRound q ≤ (⌊q⌋ : ℚ) + 1 := by
  simp only [pyRound]
  split
  · linarith
  · split
    · exact le_refl _
    · split
      · linarith
      · exact le_refl _

/-- Round-half-even is monotone. -/
theorem pyRound_mono {a b : ℚ} (hab : a ≤ b) : pyRound a ≤ pyRound b := by
  rcases lt_or_eq_of_le (Int.floor_mono hab) with hf | hf
  · have h1 := pyRound_le_floor_add_one a
    have h2 := pyRound_ge_floor b
    have h3 : (⌊a⌋ : ℚ) + 1 ≤ (⌊b⌋ : ℚ) := by
      have h4 := Int.add_one_le_iff.mpr hf
      exact_mod_cast h4
    linarith
  · simp only [pyRound]
    rw [← hf]
    by_cases hb1 : b - ((⌊a⌋ : ℤ) : ℚ) < 1/2
    · have ha1 : a - ((⌊a⌋ : ℤ) : ℚ) < 1/2 := by linarith
      rw [if_pos ha1, if_pos hb1]
    · by_cases ha1 : a - ((⌊a⌋ : ℤ) : ℚ) < 1/2
      · rw [if_pos ha1, if_neg hb1]
        split
        · linarith
        · split
          · linarith
          · linarith
      · rw [if_neg ha1, if_neg hb1]
        by_cases ha2 : (1 : ℚ)/2 < a - ((⌊a⌋ : ℤ) : ℚ)
        · have hb2 : (1 : ℚ)/2 < b - ((⌊a⌋ : ℤ) : ℚ) := by linarith
          rw [if_pos ha2, if_pos hb2]
        · by_cases hb2 : (1 : ℚ)/2 < b - ((⌊a⌋ : ℤ) : ℚ)
          · rw [if_neg ha2, if_pos hb2]
            split
            · linarith
            · linarith
          · rw [if_neg ha2, if_neg hb2]

/-- The download clamp is within [0, 50]. -/
theorem dlClamp_bounds (x : ℚ) : 0 ≤ dlClamp x ∧ dlClamp x ≤ 50 :=
  ⟨le_max_left 0 _, max_le (by norm_num) (min_le_left _ _)⟩

/-- The download clamp is monotone. -/
theorem dlClamp_mono {x y : ℚ} (h : x ≤ y) : dlClamp x ≤ dlClamp y := by
  unfold dlClamp
  have h2 : x / 2 ≤ y / 2 := by linarith
  exact max_le_max (le_refl 0) (min_le_min (le_refl 50) h2)

/-- The upload clamp is within [50, 90]. -/
theorem upClamp_bounds (p : ℚ) : 50 ≤ upClamp p ∧ upClamp p ≤ 90 := by
  constructor
  · unfold upClamp
    have hz : (50 : ℚ) ≤ 50 + max 0 (min 50 (p / 2)) := by
      have h1 := le_max_left (0 : ℚ) (min 50 (p / 2))
      linarith
    have hfl : (50 : ℤ) ≤ ⌊(50 : ℚ) + max 0 (min 50 (p / 2))⌋ := by
      apply Int.le_floor.mpr
      exact_mod_cast hz
    have h2 := pyRound_ge_floor (50 + max 0 (min 50 (p / 2)))
    have h3 : ((50 : ℤ) : ℚ) ≤ (⌊(50 : ℚ) + max 0 (min 50 (p / 2))⌋ : ℚ) := by
      exact_mod_cast hfl
    refine le_min ?_ (by norm_num)
    push_cast at h3
    linarith
  · exact min_le_right _ _

/-- The upload clamp is monotone. -/
theorem upClamp_mono {p q : ℚ} (h : p ≤ q) : upClamp p ≤ upClamp q := by
  unfold upClamp
  have h2 : p / 2 ≤ q / 2 := by linarith
  have h3 : (50 : ℚ) + max 0 (min 50 (p / 2)) ≤ 50 + max 0 (min 50 (q / 2)) := by
    have h4 := max_le_max (le_refl (0 : ℚ)) (min_le_min (le_refl (50 : ℚ)) h2)
    linarith
  exact min_le_min (pyRound_mono h3) (le_refl 90)

/-- The readiness-poll percent is within [90, 99.9] for non-negative
elapsed time. -/
theorem autostartPct_bounds (e : ℚ) (he : 0 ≤ e) :
    90 ≤ autostartPct e ∧ autostartPct e ≤ 999/10 := by
  constructor
  · refine le_min (by norm_num) ?_
    have h1 : (0 : ℚ) ≤ e / 40 := by positivity
    linarith
  · exact min_le_left _ _

/-- The readiness-poll percent is monotone in elapsed time. -/
theorem autostartPct_mono {d e : ℚ} (h : d ≤ e) : autostartPct d ≤ autostartPct e := by
  unfold autostartPct
  have h2 : d / 40 ≤ e / 40 := by linarith
  exact min_le_min (le_refl _) (by linarith)

/-- `percentsOf` distributes over concatenation. -/
theorem percentsOf_append (l1 l2 : List Asg) :
    percentsOf (l1 ++ l2) = percentsOf l1 ++ percentsOf l2 :=
  List.filterMap_append l1 l2 _

/-- `stsOf` distributes over concatenation. -/
theorem stsOf_append (l1 l2 : List Asg) :
    stsOf (l1 ++ l2) = stsOf l1 ++ stsOf l2 :=
  List.filterMap_append l1 l2 _

/-- The percents of a pure percent-assignment list. -/
theorem percentsOf_map_pct {α : Type} (g : α → ℚ) (l : List α) :
    percentsOf (l.map (fun x => Asg.pct (g x))) = l.map g := by
  induction l with
  | nil => rfl
  | cons x rest ih =>
    show g x :: percentsOf (rest.map (fun x => Asg.pct (g x))) = g x :: rest.map g
    rw [ih]

/-- A pure percent-assignment list assigns no states. -/
theorem stsOf_map_pct {α : Type} (g : α → ℚ) (l : List α) :
    stsOf (l.map (fun x => Asg.pct (g x))) = [] := by
  induction l with
  | nil => rfl
  | cons x rest ih =>
    show stsOf (rest.map (fun x => Asg.pct (g x))) = []
    exact ih

/-- Appending two non-decreasing percent runs separated by a level `c`. -/
theorem chain_le_append {l1 l2 : List ℚ} (c : ℚ) (h1 : List.Chain' (· ≤ ·) l1)
    (h2 : List.Chain' (· ≤ ·) l2) (hb1 : ∀ x ∈ l1, x ≤ c) (hb2 : ∀ x ∈ l2, c ≤ x) :
    List.Chain' (· ≤ ·) (l1 ++ l2) := by
  refine h1.append h2 ?_
  intro x hx y hy
  have hx2 : x ∈ l1 := List.mem_of_getLast?_eq_some (Option.mem_def.mp hx)
  have hy2 : y ∈ l2 := List.mem_of_mem_head? hy
  exact le_trans (hb1 x hx2) (hb2 y hy2)

/-- Device success at attempt `k` breaks out of the loop. -/
theorem upload_go_ok_zero (atts : Nat → UploadAttempt) (f k : Nat) (e : Int)
    (ho : (atts k).outcome = .ok e) (he : e = 0) :
    upload_go atts (f + 1) k =
      ⟨(atts k).prog.map (fun p => Asg.pct (upClamp p)),
       [UpEvent.attemptStart k], .brokeOk, k + 1⟩ := by
  conv_lhs => rw [upload_go]
  simp [ho, he]

/-- A non-zero device `err` at attempt `k` sets state ERROR and returns. -/
theorem upload_go_ok_nonzero (atts : Nat → UploadAttempt) (f k : Nat) (e : Int)
    (ho : (atts k).outcome = .ok e) (he : e ≠ 0) :
    upload_go atts (f + 1) k =
      ⟨(atts k).prog.map (fun p => Asg.pct (upClamp p)) ++ [Asg.st .fpError],
       [UpEvent.attemptStart k], .rejected, k + 1⟩ := by
  conv_lhs => rw [upload_go]
  simp [ho, he]

/-- Every percent the upload loop assigns lies within [50, 90]. -/
theorem upload_go_pct_bounds (atts : Nat → UploadAttempt) :
    ∀ (fuel k : Nat) (x : ℚ), x ∈ percentsOf (upload_go atts fuel k).asgs →
      50 ≤ x ∧ x ≤ 90 := by
  intro fuel
  induction fuel with
  | zero =>
    intro k x hx
    simp [upload_go, percentsOf] at hx
  | succ f ih =>
    intro k x hx
    rcases ho : (atts k).outcome with e | s
    · by_cases he : e = 0
      · rw [upload_go_ok_zero atts f k e ho he] at hx
        rw [percentsOf_map_pct upClamp] at hx
        obtain ⟨p, _, rfl⟩ := List.mem_map.mp hx
        exact upClamp_bounds p
      · rw [upload_go_ok_nonzero atts f k e ho he] at hx
        rw [percentsOf_append, percentsOf_map_pct upClamp] at hx
        rcases List.mem_append.mp hx with hx1 | hx1
        · obtain ⟨p, _, rfl⟩ := List.mem_map.mp hx1
          exact upClamp_bounds p
        · simp [percentsOf] at hx1
    · cases hrs : retryableStatus s with
      | true =>
        rw [upload_go_retryable_cons atts f k s ho hrs] at hx
        rw [percentsOf_append, percentsOf_map_pct upClamp] at hx
        rcases List.mem_append.mp hx with hx1 | hx1
        · obtain ⟨p, _, rfl⟩ := List.mem_map.mp hx1
          exact upClamp_bounds p
        · exact ih (k + 1) x hx1
      | false =>
        rw [upload_go_raise atts f k s ho hrs] at hx
        rw [percentsOf_map_pct upClamp] at hx
        obtain ⟨p, _, rfl⟩ := List.mem_map.mp hx
        exact upClamp_bounds p

/-- A device-rejected loop run ends on the ERROR state assignment. -/
theorem upload_go_rejected_last (atts : Nat → UploadAttempt) :
    ∀ (fuel k : Nat), (upload_go atts fuel k).exit = .rejected →
      (stsOf (upload_go atts fuel k).asgs).getLast? = some .fpError := by
  intro fuel
  induction fuel with
  | zero =>
    intro k h
    simp [upload_go] at h
  | succ f ih =>
    intro k h
    rcases ho : (atts k).outcome with e | s
    · by_cases he : e = 0
      · rw [upload_go_ok_zero atts f k e ho he] at h
        exact absurd h (by simp)
      · rw [upload_go_ok_nonzero atts f k e ho he]
        rw [stsOf_append, stsOf_map_pct upClamp]
        rfl
    · cases hrs : retryableStatus s with
      | true =>
        rw [upload_go_retryable_cons atts f k s ho hrs] at h ⊢
        rw [stsOf_append, stsOf_map_pct upClamp]
        simp only [List.nil_append]
        exact ih (k + 1) h
      | false =>
        rw [upload_go_raise atts f k s ho hrs] at h
        exact absurd h (by simp)

/-- When the first attempt decides the loop (it does not fail retryably),
the loop's percent assignments are exactly the first attempt's clamped
progress values. -/
theorem upload_retry_first_decides (atts : Nat → UploadAttempt)
    (hfd : ∀ s, (atts 0).outcome = .respError s → retryableStatus s = false) :
    percentsOf (upload_retry atts).asgs = (atts 0).prog.map upClamp := by
  rcases ho : (atts 0).outcome with e | s
  · by_cases he : e = 0
    · have h := upload_go_ok_zero atts 2 0 e ho he
      norm_num at h
      rw [show upload_retry atts = upload_go atts 3 0 from rfl, h,
        percentsOf_map_pct upClamp]
    · have h := upload_go_ok_nonzero atts 2 0 e ho he
      norm_num at h
      rw [show upload_retry atts = upload_go atts 3 0 from rfl, h,
        percentsOf_append, percentsOf_map_pct upClamp]
      simp [percentsOf]
  · have hr := hfd s ho
    have h := upload_go_raise atts 2 0 s ho hr
    norm_num at h
    rw [show upload_retry atts = upload_go atts 3 0 from rfl, h,
      percentsOf_map_pct upClamp]

/-- The readiness-poll assignments are the polls before the first ready
one, mapped through the percent formula. -/
theorem autostart_go_asgs (polls : List (ℚ × Bool)) :
    (autostart_go polls).1 =
      (polls.takeWhile (fun pb => !pb.2)).map (fun pb => Asg.pct (autostartPct pb.1)) := by
  induction polls with
  | nil => rfl
  | cons p rest ih =>
    obtain ⟨e, r⟩ := p
    cases r
    · simp [autostart_go, List.takeWhile_cons, ih]
    · simp [autostart_go, List.takeWhile_cons]

/-- The readiness-poll percents are non-decreasing when poll times are. -/
theorem autostart_chain (polls : List (ℚ × Bool))
    (hch : List.Chain' (· ≤ ·) (polls.map Prod.fst)) :
    List.Chain' (· ≤ ·) (percentsOf (autostart_go polls).1) := by
  rw [autostart_go_asgs, percentsOf_map_pct]
  have h1 : List.Chain' (fun a b : ℚ × Bool => a.1 ≤ b.1) polls :=
    (List.chain'_map Prod.fst).mp hch
  have h2 : List.Chain' (fun a b : ℚ × Bool => a.1 ≤ b.1)
      (polls.takeWhile (fun pb => !pb.2)) :=
    h1.prefix (List.takeWhile_prefix _)
  exact List.chain'_map_of_chain' _ (fun a b hab => autostartPct_mono hab) h2

/-- The readiness-poll percents lie within [90, 99.9]. -/
theorem autostart_pct_bounds (polls : List (ℚ × Bool))
    (hnn : ∀ p ∈ polls, 0 ≤ p.1) :
    ∀ x ∈ percentsOf (autostart_go polls).1, 90 ≤ x ∧ x ≤ 999/10 := by
  rw [autostart_go_asgs, percentsOf_map_pct]
  intro x hx
  obtain ⟨pb, hpb, rfl⟩ := List.mem_map.mp hx
  have hmem : pb ∈ polls := (List.takeWhile_sublist _).subset hpb
  exact autostartPct_bounds pb.1 (hnn pb hmem)

/-- The percent assignments before the upload: the initial 0 and the
clamped download progress. -/
theorem pipelinePre_percents (sc : PipeScenario) :
    percentsOf (pipelinePre sc) = 0 :: sc.dl.map dlClamp := by
  show (0 : ℚ) :: percentsOf (sc.dl.map (fun x => Asg.pct (dlClamp x))) =
    0 :: sc.dl.map dlClamp
  rw [percentsOf_map_pct dlClamp]

/-- The only state assigned before the upload is DOWNLOADING. -/
theorem pipelinePre_sts (sc : PipeScenario) :
    stsOf (pipelinePre sc) = [FPState.downloading] := by
  show FPState.downloading :: stsOf (sc.dl.map (fun x => Asg.pct (dlClamp x))) =
    [FPState.downloading]
  rw [stsOf_map_pct dlClamp]

/-- The pre-upload percents are non-decreasing for non-decreasing download
progress. -/
theorem pipelinePre_chain (sc : PipeScenario) (hdl : List.Chain' (· ≤ ·) sc.dl) :
    List.Chain' (· ≤ ·) (percentsOf (pipelinePre sc)) := by
  rw [pipelinePre_percents]
  refine List.chain'_cons'.mpr ⟨?_, ?_⟩
  · intro b hb
    have hb2 : b ∈ sc.dl.map dlClamp := List.mem_of_mem_head? hb
    obtain ⟨x, _, rfl⟩ := List.mem_map.mp hb2
    exact (dlClamp_bounds x).1
  · exact List.chain'_map_of_chain' _ (fun a b hab => dlClamp_mono hab) hdl

/-- The pre-upload percents are at most 50. -/
theorem pipelinePre_pct_le (sc : PipeScenario) :
    ∀ x ∈ percentsOf (pipelinePre sc), x ≤ 50 := by
  rw [pipelinePre_percents]
  intro x hx
  rcases List.mem_cons.mp hx with hx1 | hx1
  · rw [hx1]; norm_num
  · obtain ⟨y, _, rfl⟩ := List.mem_map.mp hx1
    exact (dlClamp_bounds y).2

/-- The last element of a doubly nested concatenation ending in a
singleton. -/
theorem getLast?_append_concat {α : Type} (l1 l2 : List α) (a : α) :
    (l1 ++ (l2 ++ [a])).getLast? = some a := by
  rw [List.getLast?_append, List.getLast?_concat]
  rfl

/-- Claim C3 (amended): when the upload is decided by its first attempt
(no retryable failure restarts the progress), the reported percent
sequence is non-decreasing for non-decreasing download/upload/poll
inputs; every success path (device `err == 0`, and the readiness poll
succeeding when auto-start was requested) terminates with state READY at
exactly 100.0; and every device-rejection path terminates with state
ERROR at a percent below 100.  (A retried upload attempt can lower the
percent back toward 50, so the unrestricted claim fails.) -/
theorem pipeline_c3_spec :
    (∀ sc : PipeScenario,
      List.Chain' (· ≤ ·) sc.dl →
      List.Chain' (· ≤ ·) (sc.atts 0).prog →
      (∀ s, (sc.atts 0).outcome = .respError s → retryableStatus s = false) →
      List.Chain' (· ≤ ·) (sc.polls.map Prod.fst) →
      (∀ p ∈ sc.polls, 0 ≤ p.1) →
      List.Chain' (· ≤ ·) (percentsOf (pipeline sc).1)) ∧
    (∀ sc : PipeScenario,
      (upload_retry sc.atts).exit = .brokeOk →
      (sc.autoStart = true → (autostart_go sc.polls).2 = true) →
      (pipeline sc).2 = .doneReady ∧
      (percentsOf (pipeline sc).1).getLast? = some 100 ∧
      lastStateOf (pipeline sc).1 = some .ready) ∧
    (∀ sc : PipeScenario,
      (upload_retry sc.atts).exit = .rejected →
      (pipeline sc).2 = .rejected ∧
      lastStateOf (pipeline sc).1 = some .fpError ∧
      ∀ q ∈ percentsOf (pipeline sc).1, q < 100) := by
  have h100pct : percentsOf [Asg.pct 100, Asg.st .ready] = [100] := rfl
  refine ⟨?_, ?_, ?_⟩
  · intro sc hdl hprog hfd hpoll hpollnn
    have hP1c := pipelinePre_chain sc hdl
    have hP1le := pipelinePre_pct_le sc
    have hP2eq := upload_retry_first_decides sc.atts hfd
    have hP2c : List.Chain' (· ≤ ·) (percentsOf (upload_retry sc.atts).asgs) := by
      rw [hP2eq]
      exact List.chain'_map_of_chain' _ (fun a b hab => upClamp_mono hab) hprog
    have hP2b : ∀ x ∈ percentsOf (upload_retry sc.atts).asgs, 50 ≤ x ∧ x ≤ 90 :=
      fun x hx => upload_go_pct_bounds sc.atts 3 0 x hx
    have hP3c := autostart_chain sc.polls hpoll
    have hP3b := autostart_pct_bounds sc.polls hpollnn
    have hassemble : ∀ tail : List Asg,
        List.Chain' (· ≤ ·) (percentsOf tail) →
        (∀ x ∈ percentsOf tail, 90 ≤ x) →
        List.Chain' (· ≤ ·)
          (percentsOf (pipelinePre sc ++ (upload_retry sc.atts).asgs ++ tail)) := by
      intro tail htc htb
      rw [List.append_assoc, percentsOf_append, percentsOf_append]
      have hmid : List.Chain' (· ≤ ·)
          (percentsOf (upload_retry sc.atts).asgs ++ percentsOf tail) :=
        chain_le_append 90 hP2c htc (fun x hx => (hP2b x hx).2) htb
      refine chain_le_append 50 hP1c hmid hP1le ?_
      intro x hx
      rcases List.mem_append.mp hx with h | h
      · exact (hP2b x h).1
      · have := htb x h
        linarith
    rcases hex : (upload_retry sc.atts).exit with _ | _ | s | _
    · simp only [pipeline, hex]
      cases hAS : sc.autoStart with
      | false =>
        simp only [Bool.false_eq_true, if_false]
        refine hassemble [Asg.pct 100, Asg.st .ready] ?_ ?_
        · rw [h100pct]
          simp
        · intro x hx
          rw [h100pct] at hx
          rcases List.mem_singleton.mp hx with rfl
          norm_num
      | true =>
        simp only [hAS, if_true]
        cases hfound : (autostart_go sc.polls).2 with
        | false =>
          simp only [Bool.false_eq_true, if_false]
          exact hassemble (autostart_go sc.polls).1 hP3c (fun x hx => (hP3b x hx).1)
        | true =>
          simp only [if_true]
          rw [List.append_assoc (pipelinePre sc ++ (upload_retry sc.atts).asgs)]
          refine hassemble ((autostart_go sc.polls).1 ++ [Asg.pct 100, Asg.st .ready]) ?_ ?_
          · rw [percentsOf_append, h100pct]
            refine chain_le_append (999/10) hP3c (by simp) (fun x hx => (hP3b x hx).2) ?_
            intro x hx
            rcases List.mem_singleton.mp hx with rfl
            norm_num
          · intro x hx
            rw [percentsOf_append, h100pct] at hx
            rcases List.mem_append.mp hx with h | h
            · exact (hP3b x h).1
            · rcases List.mem_singleton.mp h with rfl
              norm_num
    · simp only [pipeline, hex]
      rw [percentsOf_append]
      exact chain_le_append 50 hP1c hP2c hP1le (fun x hx => (hP2b x hx).1)
    · simp only [pipeline, hex]
      rw [percentsOf_append]
      exact chain_le_append 50 hP1c hP2c hP1le (fun x hx => (hP2b x hx).1)
    · simp only [pipeline, hex]
      cases hAS : sc.autoStart with
      | false =>
        simp only [Bool.false_eq_true, if_false]
        refine hassemble [Asg.pct 100, Asg.st .ready] ?_ ?_
        · rw [h100pct]
          simp
        · intro x hx
          rw [h100pct] at hx
          rcases List.mem_singleton.mp hx with rfl
          norm_num
      | true =>
        simp only [hAS, if_true]
        cases hfound : (autostart_go sc.polls).2 with
        | false =>
          simp only [Bool.false_eq_true, if_false]
          exact hassemble (autostart_go sc.polls).1 hP3c (fun x hx => (hP3b x hx).1)
        | true =>
          simp only [if_true]
          rw [List.append_assoc (pipelinePre sc ++ (upload_retry sc.atts).asgs)]
          refine hassemble ((autostart_go sc.polls).1 ++ [Asg.pct 100, Asg.st .ready]) ?_ ?_
          · rw [percentsOf_append, h100pct]
            refine chain_le_append (999/10) hP3c (by simp) (fun x hx => (hP3b x hx).2) ?_
            intro x hx
            rcases List.mem_singleton.mp hx with rfl
            norm_num
          · intro x hx
            rw [percentsOf_append, h100pct] at hx
            rcases List.mem_append.mp hx with h | h
            · exact (hP3b x h).1
            · rcases List.mem_singleton.mp h with rfl
              norm_num
  · intro sc hexit hauto
    simp only [pipeline, hexit]
    cases hAS : sc.autoStart with
    | false =>
      simp only [Bool.false_eq_true, if_false]
      refine ⟨by trivial, ?_, ?_⟩
      · rw [percentsOf_append, h100pct, List.getLast?_concat]
      · show (stsOf (pipelinePre sc ++ (upload_retry sc.atts).asgs ++
          [Asg.pct 100, Asg.st .ready])).getLast? = some FPState.ready
        rw [stsOf_append,
          show stsOf [Asg.pct 100, Asg.st .ready] = [FPState.ready] from rfl,
          List.getLast?_concat]
    | true =>
      have hfound := hauto hAS
      simp only [hAS, hfound, if_true]
      refine ⟨by trivial, ?_, ?_⟩
      · rw [percentsOf_append, h100pct, List.getLast?_concat]
      · show (stsOf (pipelinePre sc ++ (upload_retry sc.atts).asgs ++
          (autostart_go sc.polls).1 ++ [Asg.pct 100, Asg.st .ready])).getLast? =
          some FPState.ready
        rw [stsOf_append,
          show stsOf [Asg.pct 100, Asg.st .ready] = [FPState.ready] from rfl,
          List.getLast?_concat]
  · intro sc hexit
    refine ⟨by simp [pipeline, hexit], ?_, ?_⟩
    · show (stsOf (pipeline sc).1).getLast? = some FPState.fpError
      simp only [pipeline, hexit]
      rw [stsOf_append, pipelinePre_sts, List.getLast?_append]
      have hlast : (stsOf (upload_retry sc.atts).asgs).getLast? = some FPState.fpError :=
        upload_go_rejected_last sc.atts 3 0 hexit
      rw [hlast]
      rfl
    · intro q hq
      simp only [pipeline, hexit] at hq
      rw [percentsOf_append] at hq
      rcases List.mem_append.mp hq with h | h
      · have := pipelinePre_pct_le sc q h
        linarith
      · have := (upload_go_pct_bounds sc.atts 3 0 q h).2
        linarith

/-- Counterexample to claim C3: attempt 0 reports progress 80 (percent 90)
and fails with a retryable 401; attempt 1 starts over at progress 0
(percent 50).  The reported percent sequence [0, 90, 50, 100] regresses,
so the percent sequence of a pipeline execution is not always
non-decreasing. -/
theorem pipeline_c3_counterexample :
    ¬ List.Chain' (· ≤ ·) (percentsOf (pipeline scC3).1) := by
  have h : percentsOf (pipeline scC3).1 = [0, upClamp 80, upClamp 0, 100] := rfl
  have h80 : upClamp 80 = 90 := by norm_num [upClamp, pyRound]
  have h0 : upClamp 0 = 50 := by norm_num [upClamp, pyRound]
  rw [h, h80, h0]
  simp [List.chain'_cons]
  norm_num

/-- Witness for C3 (amended): a monotone download, an upload succeeding on
the first attempt and no auto-start give a non-decreasing percent
sequence ending READY at exactly 100. -/
theorem pipeline_c3_witness :
    List.Chain' (· ≤ ·) (percentsOf (pipeline scC3w).1) ∧
    (pipeline scC3w).2 = .doneReady ∧
    (percentsOf (pipeline scC3w).1).getLast? = some 100 ∧
    lastStateOf (pipeline scC3w).1 = some .ready := by
  have h1 := pipeline_c3_spec.1 scC3w
    (by
      show List.Chain' (· ≤ ·) ([10, 50] : List ℚ)
      simp [List.chain'_cons]
      norm_num)
    (by
      show List.Chain' (· ≤ ·) ([20, 100] : List ℚ)
      simp [List.chain'_cons]
      norm_num)
    (by
      intro s hs
      simp [scC3w] at hs)
    (by simp [scC3w])
    (by simp [scC3w])
  have h2 := pipeline_c3_spec.2.1 scC3w rfl
    (by
      intro hAS
      simp [scC3w] at hAS)
  exact ⟨h1, h2.1, h2.2.1, h2.2.2⟩
